import Mathlib

/-!
Verification of the IIS rollback tool against its specification.

The development shallowly embeds the Python sources of the repository:
`src/tools/ssh_tool.py`, `src/tools/iis_tool.py`, `src/tools/backup_tool.py`
and `src/agents/developer_agent.py`.  Remote interactions (the SSH channel
and the Windows host on the other end) are modelled as explicit environment
data: the outcome each remote command would produce.  Python dictionaries
returned by the tools become Lean structures, exceptions become `Except`,
and the orchestrator is a function from a configuration and an environment
to its final result, the list of remote steps it issued, and the SSH state
left behind.
-/

namespace IISRollback

/-- Python `str.strip()`: drop whitespace from both ends (structurally
recursive so that every proof can evaluate it). -/
def pyStrip (s : String) : String :=
  ⟨((s.data.dropWhile Char.isWhitespace).reverse.dropWhile Char.isWhitespace).reverse⟩

/-- Split a character list at every occurrence of `sep` (the separator
arguments the sources use are single characters). -/
def splitChar (sep : Char) : List Char → List (List Char)
  | [] => [[]]
  | c :: rest =>
    match splitChar sep rest with
    | [] => if c = sep then [[], []] else [[c]]
    | g :: gs => if c = sep then [] :: g :: gs else (c :: g) :: gs

/-- Python `s.split(sep)` for a one-character separator. -/
def splitS (sep : Char) (s : String) : List String :=
  (splitChar sep s.data).map (fun l => ⟨l⟩)

/-- Outcome of one remote command at the transport level: either the channel
returned stdout/stderr/exit-code, or the library raised an exception with the
given message (caught inside `execute_command`, ssh_tool.py:241-248). -/
inductive ExecOutcome where
  | ok (stdout stderr : String) (exit_code : Int)
  | exc (msg : String)
deriving DecidableEq, Repr

/-- The result dictionary built by `SSHExecutor.execute_command`
(ssh_tool.py:228-233 resp. 243-248). -/
structure CmdResult where
  success : Bool
  stdout : String
  stderr : String
  return_code : Int
deriving DecidableEq, Repr

/-- `SSHExecutor.execute_command` (ssh_tool.py:180-248).  Raises (RuntimeError)
iff the executor is not connected; otherwise the try/except turns any
execution exception into a result with success=false and return_code=-1.
Python's `.strip()` on the outputs is modelled by `pyStrip`. -/
def execute_command (connected : Bool) (outcome : ExecOutcome) : Except String CmdResult :=
  if connected then
    match outcome with
    | .ok out err code =>
        .ok { success := code == 0, stdout := pyStrip out, stderr := pyStrip err, return_code := code }
    | .exc msg =>
        .ok { success := false, stdout := "", stderr := msg, return_code := -1 }
  else
    .error "Not connected to SSH server. Call connect() first."

/-- `execute_command` as invoked by the managers inside a run, where the
session is connected (the only way they ever call it): it never raises. -/
def execConnected (outcome : ExecOutcome) : CmdResult :=
  match outcome with
  | .ok out err code =>
      { success := code == 0, stdout := pyStrip out, stderr := pyStrip err, return_code := code }
  | .exc msg =>
      { success := false, stdout := "", stderr := msg, return_code := -1 }

/-! ## SSH connection (ssh_tool.py) -/

/-- What the transport does on one connection attempt
(`self.client.connect(**connect_params)`, ssh_tool.py:165). -/
inductive AttemptOutcome where
  | success
  | authFailure
  | transportFailure
deriving DecidableEq, Repr

/-- The retry loop of `SSHExecutor._connect_with_retry` (ssh_tool.py:140-165).
The tenacity decorator `retry(stop=stop_after_attempt(3), wait=wait_exponential(...))`
uses the DEFAULT retry predicate, which retries on ANY exception -- it draws no
distinction between authentication and transport failures.  `attempts i` is the
outcome of the i-th attempt (0-based); the fuel argument is the remaining
attempt budget.  After the budget is exhausted the last failure is raised. -/
def connectWithRetryGo (attempts : Nat → AttemptOutcome) :
    Nat → Nat → Except AttemptOutcome Nat
  | _, 0 => .error .transportFailure
  | i, remaining + 1 =>
    match attempts i with
    | .success => .ok i
    | o => if remaining = 0 then .error o else connectWithRetryGo attempts (i + 1) remaining

/-- `_connect_with_retry` with the decorator's bound stop_after_attempt(3):
returns the index of the succeeding attempt, or the last failure. -/
def connect_with_retry (attempts : Nat → AttemptOutcome) : Except AttemptOutcome Nat :=
  connectWithRetryGo attempts 0 3

/-- The mutable connection state of an `SSHExecutor`: whether a paramiko
client object has been created and whether `connected` is set. -/
structure SSHState where
  hasClient : Bool
  connected : Bool
deriving DecidableEq, Repr

/-- `SSHExecutor.connect` (ssh_tool.py:101-138): no-op returning True when
already connected; otherwise creates the client, runs the retry loop, sets
`connected := true` on success, and on failure sets `connected := false` and
re-raises.  Returns the Python result/exception and the post-state. -/
def ssh_connect (s : SSHState) (attempts : Nat → AttemptOutcome) :
    Except AttemptOutcome Bool × SSHState :=
  if s.connected then
    (.ok true, s)
  else
    match connect_with_retry attempts with
    | .ok _ => (.ok true, { hasClient := true, connected := true })
    | .error e => (.error e, { hasClient := true, connected := false })

/-- `SSHExecutor.disconnect` (ssh_tool.py:167-178): closes and clears the flag
only when a client exists and the flag is set; otherwise only logs. -/
def sshDisconnect (s : SSHState) : SSHState :=
  if s.hasClient && s.connected then { s with connected := false } else s

/-- Python truthiness of an optional string (None and "" are falsy). -/
def optTruthy : Option String → Bool
  | some s => !s.isEmpty
  | none => false

/-- `SSHConfig` (ssh_tool.py:26-44). -/
structure SSHConfig where
  host : String
  username : String
  port : Int := 22
  password : Option String := none
  key_path : Option String := none
  timeout : Int := 30

/-- `SSHExecutor._validate_config` (ssh_tool.py:83-99); `keyFileExists` is the
filesystem's answer for the key path. -/
def validate_config (cfg : SSHConfig) (keyFileExists : Bool) : Except String Unit :=
  if !optTruthy cfg.password && !optTruthy cfg.key_path then
    .error "Either SSH password or SSH key path must be provided"
  else if optTruthy cfg.key_path && !keyFileExists then
    .error "SSH key file not found"
  else
    .ok ()

/-- `DeveloperAgent._connect_ssh` (developer_agent.py:108-133): constructs the
executor (running `_validate_config`), calls `connect()`, and returns False on
any exception.  The second component is `self.ssh` afterwards: `none` when the
constructor raised before the assignment at line 121 completed. -/
def connect_ssh (cfg : SSHConfig) (keyFileExists : Bool)
    (attempts : Nat → AttemptOutcome) : Bool × Option SSHState :=
  match validate_config cfg keyFileExists with
  | .error _ => (false, none)
  | .ok _ =>
    match ssh_connect { hasClient := false, connected := false } attempts with
    | (.ok _, s) => (true, some s)
    | (.error _, s) => (false, some s)

/-! ## IIS manager (iis_tool.py) -/

/-- `IISManager.stop_site` (iis_tool.py:165-194): runs the appcmd stop command
and passes the command result through. -/
def stop_site (cmdRes : ExecOutcome) : CmdResult := execConnected cmdRes

/-- `IISManager.start_site` (iis_tool.py:196-225). -/
def start_site (cmdRes : ExecOutcome) : CmdResult := execConnected cmdRes

/-- `IISManager.delete_site_content` (iis_tool.py:288-339): issues the deletion
command (keep-root or full) and passes the command result through. -/
def delete_site_content (cmdRes : ExecOutcome) : CmdResult := execConnected cmdRes

/-- `IISManager.get_site_state` (iis_tool.py:265-286): returns the probe's
stripped stdout when the command succeeded, None otherwise. -/
def get_site_state (cmdRes : ExecOutcome) : Option String :=
  let result := execConnected cmdRes
  if result.success then some (pyStrip result.stdout) else none

/-- The remote behaviour of the probe built at iis_tool.py:275-279: when the
channel works, a present site prints its state and an absent one prints
"NotFound" (the else-branch of the embedded script), both with exit code 0.
`siteState` is the state of the named site on the host, none when absent. -/
def siteStateProbe (siteState : Option String) : ExecOutcome :=
  match siteState with
  | some st => .ok st "" 0
  | none => .ok "NotFound" "" 0

/-- The result dictionary built by `IISManager.copy_files`
(iis_tool.py:375-381 resp. 386-392). -/
structure CopyResult where
  success : Bool
  message : String
  stdout : String
  stderr : String
  return_code : Int
deriving DecidableEq, Repr

/-- `IISManager.copy_files` (iis_tool.py:341-392): robocopy-based bulk copy;
exit codes 0, 1, 2 count as success, everything else as failure. -/
def copy_files (cmdRes : ExecOutcome) : CopyResult :=
  let result := execConnected cmdRes
  if result.return_code == 0 || result.return_code == 1 || result.return_code == 2 then
    { success := true,
      message := "Files copied (robocopy exit code: " ++ toString result.return_code ++ ")",
      stdout := result.stdout, stderr := result.stderr, return_code := result.return_code }
  else
    { success := false, message := "Copy failed: " ++ result.stderr,
      stdout := result.stdout, stderr := result.stderr, return_code := result.return_code }

/-! ## Backup manager (backup_tool.py) -/

/-- `BackupType` (backup_tool.py:29-33). -/
inductive BackupType where
  | ZIP
  | FOLDER
  | UNKNOWN
deriving DecidableEq, Repr

/-- `RollbackMode` (backup_tool.py:36-40). -/
inductive RollbackMode where
  | ZIP
  | FOLDER
  | NONE
deriving DecidableEq, Repr

/-- `RollbackMode.value` (the string payload of the Python enum). -/
def modeValue : RollbackMode → String
  | .ZIP => "zip"
  | .FOLDER => "folder"
  | .NONE => "none"

/-- `BackupInfo` (backup_tool.py:43-57); datetimes are modelled by their
display strings. -/
structure BackupInfo where
  path : String
  type : BackupType
  name : String
  timestamp : String
deriving DecidableEq, Repr

/-- The dictionary returned by `BackupManager.detect_backup_type`
(backup_tool.py:133-180). -/
structure Detection where
  type : RollbackMode
  zip_count : Int
  backup_info : Option BackupInfo
  message : String
deriving DecidableEq, Repr

/-- One run of digits, possibly with single underscores strictly between
digits, as accepted inside a Python integer literal / int() argument. -/
def digitRun : List Char → Bool
  | [] => false
  | [c] => c.isDigit
  | c :: '_' :: rest => c.isDigit && digitRun rest
  | c :: rest => c.isDigit && digitRun rest

/-- Decimal value of a digit run, skipping underscores. -/
def digitsVal (cs : List Char) : Nat :=
  cs.foldl (fun a c => if c = '_' then a else 10 * a + (c.toNat - 48)) 0

/-- Python `int(s)` on a string: surrounding whitespace is ignored, then an
optional sign followed by a digit run; anything else raises ValueError
(modelled as none). -/
def pyInt? (s : String) : Option Int :=
  match (pyStrip s).data with
  | '-' :: rest => if digitRun rest then some (-(digitsVal rest : Int)) else none
  | '+' :: rest => if digitRun rest then some (digitsVal rest : Int) else none
  | cs => if digitRun cs then some (digitsVal cs : Int) else none

/-- `os.path.join`, with the Windows separator the repo's paths use. -/
def joinW (a b : String) : String := if a.isEmpty then b else a ++ "\\" ++ b

/-- `os.path.dirname`, with the Windows separator. -/
def dirnameW (s : String) : String :=
  String.intercalate "\\" (splitS '\\' s).dropLast

/-- `os.path.basename(s.rstrip('\x5c'))` as used by `_get_folder_info`
(backup_tool.py:235), with the Windows separator. -/
def basenameW (s : String) : String :=
  ((splitS '\\' s).filter (fun p => !p.isEmpty)).getLastD s

/-- `BackupManager._get_zip_info` (backup_tool.py:182-223).  `cmdRes` is the
outcome of the name|timestamp listing command; `parseDate` models whether
`datetime.strptime(, %Y-%m-%d %H:%M:%S)` accepts the string; `now` models
`datetime.now()` used by the fallback. -/
def get_zip_info (backup_path : String) (cmdRes : ExecOutcome)
    (parseDate : String → Bool) (now : String) : BackupInfo :=
  let result := execConnected cmdRes
  let fallback : BackupInfo :=
    { path := backup_path, type := .ZIP, name := "backup.zip", timestamp := now }
  if result.success && !result.stdout.isEmpty then
    let parts := splitS '|' result.stdout
    if parts.length ≥ 2 then
      let ts := pyStrip ((parts.get? 1).getD "")
      if parseDate ts then
        { path := backup_path, type := .ZIP, name := pyStrip ((parts.get? 0).getD ""),
          timestamp := ts }
      else fallback
    else fallback
  else fallback

/-- `BackupManager._get_folder_info` (backup_tool.py:225-261). -/
def get_folder_info (backup_path : String) (cmdRes : ExecOutcome)
    (parseDate : String → Bool) (now : String) : BackupInfo :=
  let folder_name := basenameW backup_path
  let result := execConnected cmdRes
  let ts :=
    if result.success && !result.stdout.isEmpty && parseDate (pyStrip result.stdout) then
      pyStrip result.stdout
    else now
  { path := backup_path, type := .FOLDER, name := folder_name, timestamp := ts }

/-- The archive count the classifier works with: Python
`int(result['stdout'].strip())` with ValueError handled as 0
(backup_tool.py:140-143). -/
def reportedCount (cmdRes : ExecOutcome) : Int :=
  (pyInt? (pyStrip (execConnected cmdRes).stdout)).getD 0

/-- `BackupManager.detect_backup_type` (backup_tool.py:96-180).  `countRes` is
the outcome of the zip-counting command, `infoRes` the outcome of the
follow-up info command run by `_get_zip_info` or `_get_folder_info`. -/
def detect_backup_type (backup_path : String) (countRes infoRes : ExecOutcome)
    (parseDate : String → Bool) (now : String) : Detection :=
  let result := execConnected countRes
  if !result.success then
    { type := .NONE, zip_count := -1, backup_info := none,
      message := "Failed to check backup: " ++ result.stderr }
  else
    let zip_count : Int := (pyInt? (pyStrip result.stdout)).getD 0
    if zip_count == 1 then
      { type := .ZIP, zip_count := 1,
        backup_info := some (get_zip_info backup_path infoRes parseDate now),
        message := "ZIP mode detected (1 ZIP file found)" }
    else if zip_count > 1 then
      { type := .NONE, zip_count := zip_count, backup_info := none,
        message := "Abort: " ++ toString zip_count ++ " ZIP files found (expected 1)" }
    else
      { type := .FOLDER, zip_count := 0,
        backup_info := some (get_folder_info backup_path infoRes parseDate now),
        message := "Folder mode detected (no ZIP files)" }

/-- Python name lookup in a local scope: a missing name raises NameError whose
str() is `name \x27x\x27 is not defined`. -/
def pyLookup (scope : List (String × String)) (name : String) : Except String String :=
  match scope.find? (fun p => p.1 == name) with
  | some p => .ok p.2
  | none => .error ("name \x27" ++ name ++ "\x27 is not defined")

/-- `BackupManager.create_temp_folder` (backup_tool.py:263-298).  The command
template at line 285 interpolates the name `basePath`, but the function binds
only `base_path`, `timestamp` and `temp_folder`; evaluating the f-string
therefore raises NameError before the remote command is issued.  The three
interpolated names of the template are modelled as explicit scope lookups, in
source order.  On a successful command the created path is returned, otherwise
RuntimeError is raised (backup_tool.py:298). -/
def create_temp_folder (nowStamp base_path : String) (cmdRes : ExecOutcome) :
    Except String String := do
  let temp_folder := joinW base_path ("Rollback_" ++ nowStamp)
  let scope := [("base_path", base_path), ("timestamp", nowStamp),
                ("temp_folder", temp_folder)]
  let _ ← pyLookup scope "base_path"
  let _ ← pyLookup scope "basePath"
  let _ ← pyLookup scope "temp_folder"
  let result := execConnected cmdRes
  if result.success then
    return temp_folder
  else
    throw ("Failed to create temp folder: " ++ result.stderr)

/-- `BackupManager.extract_zip` (backup_tool.py:300-331): runs Expand-Archive
and passes the command result through. -/
def extract_zip (cmdRes : ExecOutcome) : CmdResult := execConnected cmdRes

/-- The dictionary returned by `BackupManager.create_preventive_backup`
(backup_tool.py:374-387); `backup_path` is None on failure. -/
structure PreventiveResult where
  success : Bool
  backup_path : Option String
  message : String
deriving DecidableEq, Repr

/-- `BackupManager.create_preventive_backup` (backup_tool.py:333-387). -/
def create_preventive_backup (site_path backup_base_path site_name : String)
    (cmdRes : ExecOutcome) (nowStamp : String) : PreventiveResult :=
  let _ := site_name
  let backup_path := joinW backup_base_path ("PreRollback_" ++ nowStamp)
  let _ := site_path
  let result := execConnected cmdRes
  if result.success then
    { success := true, backup_path := some backup_path,
      message := "Preventive backup created: " ++ backup_path }
  else
    { success := false, backup_path := none,
      message := "Failed to create backup: " ++ result.stderr }

/-- `BackupManager.cleanup_temp_folder` (backup_tool.py:389-427).  `temp` is
the manager's temp_folder field; returns (success, message) and the new field
value.  Note the source resets the field before formatting the success
message, so that message reads `... : None`. -/
def cleanup_temp_folder (temp : Option String) (cmdRes : ExecOutcome) :
    (Bool × String) × Option String :=
  match temp with
  | none => ((true, "No temp folder to clean up"), none)
  | some t =>
    let result := execConnected cmdRes
    if result.success then
      ((true, "Cleaned up temp folder: None"), none)
    else
      ((false, "Failed to clean up: " ++ result.stderr), some t)

/-! ## Rollback orchestrator (developer_agent.py) -/

/-- `RollbackConfig` (developer_agent.py:32-46). -/
structure RollbackConfig where
  site_name : String
  site_path : String
  backup_path : String
  ssh_config : SSHConfig

/-- `RollbackResult` (developer_agent.py:49-69).  `preventive_backup_path` is
an Option because the source stores the preventive dictionary's value there,
which is Python None when the preventive backup failed; the dataclass default
is the empty string.  Wall-clock `duration_seconds` is not modelled. -/
structure RollbackResult where
  success : Bool
  mode : String := ""
  backup_path : String := ""
  preventive_backup_path : Option String := some ""
  temp_folder : String := ""
  error : String := ""
deriving DecidableEq, Repr

/-- Remote interactions issued by `execute_rollback`, for stating which steps
of the sequence a run actually performed. -/
inductive StepEvent where
  | connectEv
  | classifyEv
  | stageEv
  | preventiveEv
  | stopEv
  | deleteEv
  | copyEv
  | startEv
  | cleanupEv
deriving DecidableEq, Repr

/-- The environment of one rollback run: the outcome each remote interaction
would produce, the filesystem's answer about the key file, the strptime
behaviour, and the timestamps `datetime.now()` yields at the call sites. -/
structure RunEnv where
  keyFileExists : Bool
  attempts : Nat → AttemptOutcome
  countRes : ExecOutcome
  infoRes : ExecOutcome
  tempRes : ExecOutcome
  extractRes : ExecOutcome
  preventiveRes : ExecOutcome
  stopRes : ExecOutcome
  deleteRes : ExecOutcome
  copyRes : ExecOutcome
  startRes : ExecOutcome
  cleanupRes : ExecOutcome
  parseDate : String → Bool
  nowStamp : String
  nowDate : String

/-- The classification `execute_rollback` computes at Step 2
(developer_agent.py:179). -/
def detectOf (cfg : RollbackConfig) (env : RunEnv) : Detection :=
  detect_backup_type cfg.backup_path env.countRes env.infoRes env.parseDate env.nowDate

/-- Whether Step 1 (`_connect_ssh`) of the run succeeds. -/
def connOk (cfg : RollbackConfig) (env : RunEnv) : Prop :=
  (connect_ssh cfg.ssh_config env.keyFileExists env.attempts).1 = true

instance (cfg : RollbackConfig) (env : RunEnv) : Decidable (connOk cfg env) := by
  unfold connOk; infer_instance

/-- Steps 4-10 of `execute_rollback` (developer_agent.py:214-295): preventive
backup (failure only logged), stop (failure accumulated), delete (failure
accumulated), copy (failure fatal), start (failure accumulated), cleanup of
the staging folder (result only logged), finalize.  `trace0` is the trace of
the preceding steps. -/
def rollback_tail (cfg : RollbackConfig) (env : RunEnv) (mode temp_folder : String)
    (trace0 : List StepEvent) : RollbackResult × List StepEvent :=
  let preventive := create_preventive_backup cfg.site_path (dirnameW cfg.backup_path)
      cfg.site_name env.preventiveRes env.nowStamp
  let stop_result := stop_site env.stopRes
  let errs1 : List String :=
    if stop_result.success then [] else ["Failed to stop site: " ++ stop_result.stderr]
  let delete_result := delete_site_content env.deleteRes
  let errs2 := errs1 ++
    (if delete_result.success then [] else ["Failed to delete content: " ++ delete_result.stderr])
  let copy_result := copy_files env.copyRes
  let traceCopy := trace0 ++ [.preventiveEv, .stopEv, .deleteEv, .copyEv]
  if !copy_result.success then
    ({ success := false, mode := mode,
       error := "Failed to copy files: " ++ copy_result.stderr,
       backup_path := cfg.backup_path,
       preventive_backup_path := preventive.backup_path,
       temp_folder := temp_folder }, traceCopy)
  else
    let start_result := start_site env.startRes
    let errs3 := errs2 ++
      (if start_result.success then [] else ["Failed to start site: " ++ start_result.stderr])
    let trace2 := traceCopy ++ [.startEv] ++
      (if temp_folder ≠ "" then [.cleanupEv] else [])
    if errs3 ≠ [] then
      ({ success := true, mode := mode, backup_path := cfg.backup_path,
         preventive_backup_path := preventive.backup_path,
         temp_folder := temp_folder,
         error := "Completed with errors: " ++ String.intercalate "; " errs3 }, trace2)
    else
      ({ success := true, mode := mode, backup_path := cfg.backup_path,
         preventive_backup_path := preventive.backup_path,
         temp_folder := temp_folder }, trace2)

/-- The try-block of `DeveloperAgent.execute_rollback`
(developer_agent.py:168-295).  `.error` is an uncaught Python exception
propagating to the handler at line 297, paired with the trace so far.  The
single exception source on live paths is `create_temp_folder` (NameError);
`extract_zip` and the later steps return dictionaries instead of raising. -/
def rollback_body (cfg : RollbackConfig) (env : RunEnv) (okConn : Bool) :
    Except (String × List StepEvent) (RollbackResult × List StepEvent) :=
  if !okConn then
    .ok ({ success := false, error := "Failed to establish SSH connection" }, [.connectEv])
  else
    let detection := detectOf cfg env
    let trace1 : List StepEvent := [.connectEv, .classifyEv]
    if detection.type = RollbackMode.NONE then
      .ok ({ success := false, error := detection.message }, trace1)
    else
      let mode := modeValue detection.type
      if detection.type = RollbackMode.ZIP then
        match create_temp_folder env.nowStamp "E:\\Temp" env.tempRes with
        | .error e => .error (e, trace1)
        | .ok temp_folder =>
          let trace2 := trace1 ++ [.stageEv]
          let extract_result := extract_zip env.extractRes
          if !extract_result.success then
            .ok ({ success := false, mode := mode,
                   error := "Failed to extract ZIP: " ++ extract_result.stderr,
                   temp_folder := temp_folder }, trace2)
          else
            .ok (rollback_tail cfg env mode temp_folder trace2)
      else
        .ok (rollback_tail cfg env mode "" trace1)

/-- What one full run leaves behind: the result handed to the caller, the
remote steps that were issued, and `self.ssh` after the finally-block. -/
structure RunOutcome where
  result : RollbackResult
  trace : List StepEvent
  sshAfter : Option SSHState
deriving Repr

/-- `DeveloperAgent.execute_rollback` (developer_agent.py:141-308) end to end:
Step 1 connect, the try-block, the except-handler at lines 297-304 turning an
uncaught exception into a failed result, and the finally-block at lines
306-308 disconnecting whatever executor exists. -/
def execute_rollback (cfg : RollbackConfig) (env : RunEnv) : RunOutcome :=
  let conn := connect_ssh cfg.ssh_config env.keyFileExists env.attempts
  let sshAfter := conn.2.map sshDisconnect
  match rollback_body cfg env conn.1 with
  | .ok rt => { result := rt.1, trace := rt.2, sshAfter := sshAfter }
  | .error et =>
    { result := { success := false, error := et.1 }, trace := et.2, sshAfter := sshAfter }

/-! ## Witness fixtures: one concrete configuration and environments -/

/-- A concrete rollback configuration used by the witnesses. -/
def cfgW : RollbackConfig :=
  { site_name := "MyWebsite", site_path := "E:\\Sites\\My",
    backup_path := "E:\\Backups\\My",
    ssh_config := { host := "h", username := "u", password := some "p" } }

/-- A transport on which every connection attempt succeeds. -/
def attOk : Nat → AttemptOutcome := fun _ => .success

/-- A remote command that succeeds with empty output. -/
def okOut : ExecOutcome := .ok "" "" 0

/-- A baseline environment: everything succeeds and the backup directory
holds no archive (the count command prints 0). -/
def envBase : RunEnv :=
  { keyFileExists := true, attempts := attOk,
    countRes := .ok "0" "" 0, infoRes := okOut,
    tempRes := okOut, extractRes := okOut, preventiveRes := okOut,
    stopRes := okOut, deleteRes := okOut, copyRes := okOut,
    startRes := okOut, cleanupRes := okOut,
    parseDate := fun _ => false, nowStamp := "20240101_000000",
    nowDate := "2024-01-01 00:00:00" }

/-- Environment whose backup directory reports two archives. -/
def envC1 : RunEnv := { envBase with countRes := .ok "2" "" 0 }

/-- Environment in which only the stop step fails. -/
def envC2 : RunEnv := { envBase with stopRes := .ok "" "boom" 1 }

/-- Environment in which the restore copy fails (robocopy exit 16). -/
def envC3 : RunEnv := { envBase with copyRes := .ok "" "copy failed" 16 }

/-- Environment whose backup directory reports exactly one archive. -/
def envC4 : RunEnv := { envBase with countRes := .ok "1" "" 0 }

/-- A transport that rejects the first attempt's credentials and accepts the
second attempt. -/
def attC5 : Nat → AttemptOutcome := fun i => if i == 0 then .authFailure else .success

/-- Environment in which only the preventive backup fails. -/
def envC9 : RunEnv := { envBase with preventiveRes := .ok "" "disk full" 1 }

/-- Environment whose archive-count command succeeds but prints something
that is not an integer. -/
def envC10 : RunEnv := { envBase with countRes := .ok "abc" "" 0 }

/-! ## Claim-level predicates -/

/-- The run scenario of the spec sentence behind C2: the SSH connection and
the classification succeed (as a directory snapshot), `stopSite` fails, and
every other step succeeds. -/
def stopOnlyFail (cfg : RollbackConfig) (env : RunEnv) : Prop :=
  connOk cfg env ∧
  (detectOf cfg env).type = RollbackMode.FOLDER ∧
  (create_preventive_backup cfg.site_path (dirnameW cfg.backup_path) cfg.site_name
      env.preventiveRes env.nowStamp).success = true ∧
  (stop_site env.stopRes).success = false ∧
  (delete_site_content env.deleteRes).success = true ∧
  (copy_files env.copyRes).success = true ∧
  (start_site env.startRes).success = true

/-- C2 as a predicate over one run: (a) a run that reaches the end of the
step sequence (it issued the start-site step) has success=true; (b) in the
stop-only-failure scenario the result is success=true with a non-empty error
summary naming the stop failure; (c) success=false only arises from the
fail-fast aborts: connect failure, none/ambiguous classification, the staging
step of a single-archive run (which always aborts, see the NameError of
`create_temp_folder`), or a failed restore copy. -/
def C2Prop (cfg : RollbackConfig) (env : RunEnv) : Prop :=
  (StepEvent.startEv ∈ (execute_rollback cfg env).trace →
    (execute_rollback cfg env).result.success = true) ∧
  (stopOnlyFail cfg env →
    (execute_rollback cfg env).result.success = true ∧
    (execute_rollback cfg env).result.error =
      "Completed with errors: " ++ ("Failed to stop site: " ++ (stop_site env.stopRes).stderr) ∧
    (execute_rollback cfg env).result.error ≠ "") ∧
  ((execute_rollback cfg env).result.success = false →
    (connect_ssh cfg.ssh_config env.keyFileExists env.attempts).1 = false ∨
    (detectOf cfg env).type = RollbackMode.NONE ∨
    (detectOf cfg env).type = RollbackMode.ZIP ∨
    (copy_files env.copyRes).success = false)

/-- C3 as a predicate over one run: a run whose restore copy fails ends with
success=false carrying the copy error, and on every exit path whatever SSH
executor exists afterwards is disconnected. -/
def C3Prop (cfg : RollbackConfig) (env : RunEnv) : Prop :=
  ((connect_ssh cfg.ssh_config env.keyFileExists env.attempts).1 = true →
    (detectOf cfg env).type = RollbackMode.FOLDER →
    (copy_files env.copyRes).success = false →
    (execute_rollback cfg env).result.success = false ∧
    (execute_rollback cfg env).result.error =
      "Failed to copy files: " ++ (copy_files env.copyRes).stderr) ∧
  (∀ s, (execute_rollback cfg env).sshAfter = some s → s.connected = false)

/-! ## Helper lemmas -/

theorem execute_command_connected (o : ExecOutcome) :
    execute_command true o = .ok (execConnected o) := by
  cases o <;> rfl

theorem create_temp_folder_nameError (nowStamp base_path : String) (r : ExecOutcome) :
    create_temp_folder nowStamp base_path r =
      .error "name \x27basePath\x27 is not defined" := rfl

theorem preventive_fail_path (site_path base site_name : String) (r : ExecOutcome)
    (nowStamp : String)
    (h : (create_preventive_backup site_path base site_name r nowStamp).success = false) :
    (create_preventive_backup site_path base site_name r nowStamp).backup_path = none := by
  unfold create_preventive_backup at *
  cases hc : (execConnected r).success <;> simp [hc] at h ⊢

theorem rollback_tail_success (cfg : RollbackConfig) (env : RunEnv)
    (mode tf : String) (tr : List StepEvent) :
    (rollback_tail cfg env mode tf tr).1.success = (copy_files env.copyRes).success := by
  unfold rollback_tail
  cases h : (copy_files env.copyRes).success
  · simp [h]
  · simp [h]; split <;> rfl

theorem rollback_tail_startEv (cfg : RollbackConfig) (env : RunEnv)
    (mode tf : String) (tr : List StepEvent) (h : StepEvent.startEv ∉ tr) :
    (StepEvent.startEv ∈ (rollback_tail cfg env mode tf tr).2 ↔
      (copy_files env.copyRes).success = true) := by
  unfold rollback_tail
  cases hc : (copy_files env.copyRes).success
  · simp [hc, h]
  · simp [hc, h]; split <;> simp

theorem rollback_tail_copyfail (cfg : RollbackConfig) (env : RunEnv)
    (mode tf : String) (tr : List StepEvent)
    (h : (copy_files env.copyRes).success = false) :
    (rollback_tail cfg env mode tf tr).1 =
      { success := false, mode := mode,
        error := "Failed to copy files: " ++ (copy_files env.copyRes).stderr,
        backup_path := cfg.backup_path,
        preventive_backup_path := (create_preventive_backup cfg.site_path
          (dirnameW cfg.backup_path) cfg.site_name env.preventiveRes env.nowStamp).backup_path,
        temp_folder := tf } ∧
    (rollback_tail cfg env mode tf tr).2 =
      tr ++ [.preventiveEv, .stopEv, .deleteEv, .copyEv] := by
  unfold rollback_tail
  simp [h]

theorem rollback_tail_stopfail (cfg : RollbackConfig) (env : RunEnv)
    (mode tf : String) (tr : List StepEvent)
    (hstop : (stop_site env.stopRes).success = false)
    (hdel : (delete_site_content env.deleteRes).success = true)
    (hcopy : (copy_files env.copyRes).success = true)
    (hstart : (start_site env.startRes).success = true) :
    (rollback_tail cfg env mode tf tr).1.success = true ∧
    (rollback_tail cfg env mode tf tr).1.error =
      "Completed with errors: " ++ ("Failed to stop site: " ++ (stop_site env.stopRes).stderr) := by
  unfold rollback_tail
  simp [hstop, hdel, hcopy, hstart, String.intercalate, String.intercalate.go]

theorem rollback_tail_allok (cfg : RollbackConfig) (env : RunEnv)
    (mode tf : String) (tr : List StepEvent)
    (hstop : (stop_site env.stopRes).success = true)
    (hdel : (delete_site_content env.deleteRes).success = true)
    (hcopy : (copy_files env.copyRes).success = true)
    (hstart : (start_site env.startRes).success = true) :
    (rollback_tail cfg env mode tf tr).1.success = true ∧
    (rollback_tail cfg env mode tf tr).1.error = "" ∧
    (rollback_tail cfg env mode tf tr).1.preventive_backup_path =
      (create_preventive_backup cfg.site_path (dirnameW cfg.backup_path) cfg.site_name
        env.preventiveRes env.nowStamp).backup_path := by
  unfold rollback_tail
  simp [hstop, hdel, hcopy, hstart]

theorem completed_ne_empty (s : String) : ("Completed with errors: " ++ s) ≠ "" := by
  intro h
  have h2 : ("Completed with errors: " ++ s).data = [] := congrArg String.data h
  rw [String.data_append] at h2
  exact absurd (List.append_eq_nil.mp h2).1 (by decide)

theorem execute_rollback_connfail (cfg : RollbackConfig) (env : RunEnv)
    (h : (connect_ssh cfg.ssh_config env.keyFileExists env.attempts).1 = false) :
    (execute_rollback cfg env).result =
      { success := false, error := "Failed to establish SSH connection" } ∧
    (execute_rollback cfg env).trace = [StepEvent.connectEv] := by
  unfold execute_rollback rollback_body
  simp [h]

theorem execute_rollback_noneMode (cfg : RollbackConfig) (env : RunEnv)
    (hconn : (connect_ssh cfg.ssh_config env.keyFileExists env.attempts).1 = true)
    (hnone : (detectOf cfg env).type = RollbackMode.NONE) :
    (execute_rollback cfg env).result =
      { success := false, error := (detectOf cfg env).message } ∧
    (execute_rollback cfg env).trace = [StepEvent.connectEv, StepEvent.classifyEv] := by
  unfold execute_rollback rollback_body
  simp [hconn, hnone]

theorem execute_rollback_zipMode (cfg : RollbackConfig) (env : RunEnv)
    (hconn : (connect_ssh cfg.ssh_config env.keyFileExists env.attempts).1 = true)
    (hzip : (detectOf cfg env).type = RollbackMode.ZIP) :
    (execute_rollback cfg env).result =
      { success := false, error := "name \x27basePath\x27 is not defined" } ∧
    (execute_rollback cfg env).trace = [StepEvent.connectEv, StepEvent.classifyEv] := by
  unfold execute_rollback rollback_body
  simp [hconn, hzip, create_temp_folder_nameError]

theorem execute_rollback_folderMode (cfg : RollbackConfig) (env : RunEnv)
    (hconn : (connect_ssh cfg.ssh_config env.keyFileExists env.attempts).1 = true)
    (hfolder : (detectOf cfg env).type = RollbackMode.FOLDER) :
    (execute_rollback cfg env).result =
      (rollback_tail cfg env "folder" "" [StepEvent.connectEv, StepEvent.classifyEv]).1 ∧
    (execute_rollback cfg env).trace =
      (rollback_tail cfg env "folder" "" [StepEvent.connectEv, StepEvent.classifyEv]).2 := by
  unfold execute_rollback rollback_body
  simp [hconn, hfolder, modeValue]

theorem execute_rollback_sshAfter (cfg : RollbackConfig) (env : RunEnv) :
    (execute_rollback cfg env).sshAfter =
      (connect_ssh cfg.ssh_config env.keyFileExists env.attempts).2.map sshDisconnect := by
  unfold execute_rollback
  cases hb : rollback_body cfg env (connect_ssh cfg.ssh_config env.keyFileExists env.attempts).1 <;>
    simp [hb]

theorem connect_ssh_leaves_disconnected (cfg : SSHConfig) (k : Bool)
    (att : Nat → AttemptOutcome) :
    ∀ s, (connect_ssh cfg k att).2.map sshDisconnect = some s → s.connected = false := by
  intro s h
  unfold connect_ssh at h
  cases hv : validate_config cfg k with
  | error e => simp [hv] at h
  | ok u =>
    cases hr : connect_with_retry att with
    | ok n =>
      simp [hv, ssh_connect, hr, sshDisconnect] at h
      simp [← h]
    | error e =>
      simp [hv, ssh_connect, hr, sshDisconnect] at h
      simp [← h]

theorem go_success (att : Nat → AttemptOutcome) (i r : Nat)
    (h : att i = AttemptOutcome.success) :
    connectWithRetryGo att i (r + 1) = .ok i := by
  simp [connectWithRetryGo, h]

theorem go_step (att : Nat → AttemptOutcome) (i r : Nat)
    (h : att i ≠ AttemptOutcome.success) :
    connectWithRetryGo att i (r + 2) = connectWithRetryGo att (i + 1) (r + 1) := by
  cases ha : att i
  · exact absurd ha h
  · simp [connectWithRetryGo, ha]
  · simp [connectWithRetryGo, ha]

theorem go_last (att : Nat → AttemptOutcome) (i : Nat)
    (h : att i ≠ AttemptOutcome.success) :
    connectWithRetryGo att i 1 = .error (att i) := by
  cases ha : att i
  · exact absurd ha h
  · simp [connectWithRetryGo, ha]
  · simp [connectWithRetryGo, ha]

/-! ## Claim theorems -/

/-- C1: the classifier follows the decision table — when the remote
archive-count command succeeds, a reported count of exactly 1 classifies as
single-archive (ZIP), 0 as directory-snapshot (FOLDER), and 2 or more as the
none/ambiguous outcome; and a run whose classification is NONE aborts with
success=false, surfacing the classifier message, before any stop, delete or
copy command is issued. -/
theorem classify_decision_table_and_ambiguous_abort (cfg : RollbackConfig) (env : RunEnv)
    (hok : (execConnected env.countRes).success = true)
    (hconn : (connect_ssh cfg.ssh_config env.keyFileExists env.attempts).1 = true) :
    (reportedCount env.countRes = 1 → (detectOf cfg env).type = RollbackMode.ZIP) ∧
    (reportedCount env.countRes = 0 → (detectOf cfg env).type = RollbackMode.FOLDER) ∧
    (2 ≤ reportedCount env.countRes → (detectOf cfg env).type = RollbackMode.NONE) ∧
    ((detectOf cfg env).type = RollbackMode.NONE →
      (execute_rollback cfg env).result.success = false ∧
      (execute_rollback cfg env).result.error = (detectOf cfg env).message ∧
      StepEvent.stopEv ∉ (execute_rollback cfg env).trace ∧
      StepEvent.deleteEv ∉ (execute_rollback cfg env).trace ∧
      StepEvent.copyEv ∉ (execute_rollback cfg env).trace) := by
  refine ⟨?_, ?_, ?_, ?_⟩
  · intro h1
    unfold reportedCount at h1
    simp [detectOf, detect_backup_type, hok, h1]
  · intro h0
    unfold reportedCount at h0
    simp [detectOf, detect_backup_type, hok, h0]
  · intro h2
    unfold reportedCount at h2
    unfold detectOf detect_backup_type
    have hne : ((pyInt? (pyStrip (execConnected env.countRes).stdout)).getD 0 == 1) = false := by
      simp
      omega
    have hgt : (pyInt? (pyStrip (execConnected env.countRes).stdout)).getD 0 > 1 := by omega
    simp [hok, hne, hgt]
  · intro hnone
    obtain ⟨hr, ht⟩ := execute_rollback_noneMode cfg env hconn hnone
    refine ⟨by rw [hr], by rw [hr], ?_, ?_, ?_⟩ <;> rw [ht] <;> decide

/-- Witness for C1 at a backup directory reporting two archives. -/
theorem classify_decision_table_witness :
    (execConnected envC1.countRes).success = true ∧
    (connect_ssh cfgW.ssh_config envC1.keyFileExists envC1.attempts).1 = true ∧
    2 ≤ reportedCount envC1.countRes ∧
    (detectOf cfgW envC1).type = RollbackMode.NONE ∧
    (execute_rollback cfgW envC1).result.success = false ∧
    StepEvent.stopEv ∉ (execute_rollback cfgW envC1).trace ∧
    StepEvent.deleteEv ∉ (execute_rollback cfgW envC1).trace ∧
    StepEvent.copyEv ∉ (execute_rollback cfgW envC1).trace := by
  have h := classify_decision_table_and_ambiguous_abort cfgW envC1 (by decide) (by decide)
  have hn : (detectOf cfgW envC1).type = RollbackMode.NONE := h.2.2.1 (by decide)
  have ha := h.2.2.2 hn
  exact ⟨by decide, by decide, by decide, hn, ha.1, ha.2.2.1, ha.2.2.2.1, ha.2.2.2.2⟩

/-- C2: a run that reaches the end of the step sequence (it issued the
start-site step) ends with success=true even when non-fatal step errors were
accumulated; with stopSite the only failing step the result is success=true
with a non-empty error summary naming the stop failure; and success=false
arises only from the fail-fast aborts: connect failure, none/ambiguous
classification, the staging step of a single-archive run, or a failed
restore copy. -/
theorem final_success_policy (cfg : RollbackConfig) (env : RunEnv) : C2Prop cfg env := by
  unfold C2Prop
  cases hc : (connect_ssh cfg.ssh_config env.keyFileExists env.attempts).1 with
  | false =>
    obtain ⟨hr, ht⟩ := execute_rollback_connfail cfg env hc
    refine ⟨?_, ?_, ?_⟩
    · intro hmem
      rw [ht] at hmem
      simp at hmem
    · intro hs
      have h1 := hs.1
      unfold connOk at h1
      simp [hc] at h1
    · intro _
      exact Or.inl rfl
  | true =>
    cases hd : (detectOf cfg env).type with
    | NONE =>
      obtain ⟨hr, ht⟩ := execute_rollback_noneMode cfg env hc hd
      refine ⟨?_, ?_, ?_⟩
      · intro hmem
        rw [ht] at hmem
        simp at hmem
      · intro hs
        have h1 := hs.2.1
        rw [hd] at h1
        simp at h1
      · intro _
        exact Or.inr (Or.inl rfl)
    | ZIP =>
      obtain ⟨hr, ht⟩ := execute_rollback_zipMode cfg env hc hd
      refine ⟨?_, ?_, ?_⟩
      · intro hmem
        rw [ht] at hmem
        simp at hmem
      · intro hs
        have h1 := hs.2.1
        rw [hd] at h1
        simp at h1
      · intro _
        exact Or.inr (Or.inr (Or.inl rfl))
    | FOLDER =>
      obtain ⟨hr, ht⟩ := execute_rollback_folderMode cfg env hc hd
      have hnotin : StepEvent.startEv ∉ [StepEvent.connectEv, StepEvent.classifyEv] := by decide
      refine ⟨?_, ?_, ?_⟩
      · intro hmem
        rw [ht] at hmem
        rw [hr, rollback_tail_success]
        exact (rollback_tail_startEv cfg env "folder" "" _ hnotin).mp hmem
      · intro hs
        obtain ⟨h1, h2, h3, h4, h5, h6, h7⟩ := hs
        have hst := rollback_tail_stopfail cfg env "folder" ""
          [StepEvent.connectEv, StepEvent.classifyEv] h4 h5 h6 h7
        refine ⟨by rw [hr]; exact hst.1, by rw [hr]; exact hst.2, ?_⟩
        rw [hr, hst.2]
        exact completed_ne_empty _
      · intro hfail
        rw [hr, rollback_tail_success] at hfail
        exact Or.inr (Or.inr (Or.inr hfail))

/-- Witness for C2 in the stop-only-failure scenario. -/
theorem final_success_policy_witness :
    stopOnlyFail cfgW envC2 ∧
    (execute_rollback cfgW envC2).result.success = true ∧
    (execute_rollback cfgW envC2).result.error =
      "Completed with errors: " ++ ("Failed to stop site: " ++ (stop_site envC2.stopRes).stderr) ∧
    (execute_rollback cfgW envC2).result.error ≠ "" := by
  have hs : stopOnlyFail cfgW envC2 :=
    ⟨by decide, by decide, by decide, by decide, by decide, by decide, by decide⟩
  have h := (final_success_policy cfgW envC2).2.1 hs
  exact ⟨hs, h.1, h.2.1, h.2.2⟩

/-- C3: a run whose restore copy fails ends with success=false carrying the
copy error, and on every exit path the SSH executor left behind, if any, is
disconnected before the run ends. -/
theorem copy_failure_fatal_and_always_disconnected (cfg : RollbackConfig) (env : RunEnv) :
    C3Prop cfg env := by
  unfold C3Prop
  constructor
  · intro hc hd hcopy
    obtain ⟨hr, ht⟩ := execute_rollback_folderMode cfg env hc hd
    obtain ⟨hres, htr⟩ := rollback_tail_copyfail cfg env "folder" ""
      [StepEvent.connectEv, StepEvent.classifyEv] hcopy
    rw [hr, hres]
    exact ⟨rfl, rfl⟩
  · intro s h
    rw [execute_rollback_sshAfter] at h
    exact connect_ssh_leaves_disconnected _ _ _ s h

/-- Witness for C3 in a run with a failed restore copy. -/
theorem copy_failure_fatal_witness :
    (connect_ssh cfgW.ssh_config envC3.keyFileExists envC3.attempts).1 = true ∧
    (detectOf cfgW envC3).type = RollbackMode.FOLDER ∧
    (copy_files envC3.copyRes).success = false ∧
    (execute_rollback cfgW envC3).result.success = false ∧
    (∀ s, (execute_rollback cfgW envC3).sshAfter = some s → s.connected = false) := by
  have h := copy_failure_fatal_and_always_disconnected cfgW envC3
  exact ⟨by decide, by decide, by decide,
    (h.1 (by decide) (by decide) (by decide)).1, h.2⟩

/-- C4 (code bug): a run whose backup reports exactly one archive never
creates the staging directory and never extracts — building the staging
command raises NameError (the template at backup_tool.py:285 names the
unbound `basePath`), so the run aborts with success=false, an empty mode and
no staging, contradicting the claimed single-archive flow (and the repo's own
test test_create_temp_folder). -/
theorem zip_run_basePath_NameError :
    (detectOf cfgW envC4).type = RollbackMode.ZIP ∧
    (execute_rollback cfgW envC4).result =
      { success := false, error := "name \x27basePath\x27 is not defined" } ∧
    (execute_rollback cfgW envC4).result.mode ≠ "zip" ∧
    (execute_rollback cfgW envC4).result.temp_folder = "" ∧
    (execute_rollback cfgW envC4).trace = [StepEvent.connectEv, StepEvent.classifyEv] := by
  refine ⟨by decide, by decide, by decide, by decide, by decide⟩

/-- C5 counterexample: with credentials rejected on the first attempt and a
transport accepting the second, connect() succeeds — the authentication
failure was retried rather than raised immediately as fatal, refuting the
claim that connect never retries an authentication rejection. -/
theorem auth_failure_is_retried_counterexample :
    attC5 0 = AttemptOutcome.authFailure ∧
    (ssh_connect { hasClient := false, connected := false } attC5).1 = Except.ok true ∧
    connect_with_retry attC5 = Except.ok 1 := ⟨rfl, rfl, rfl⟩

/-- C5 (amended): the retry decorator draws no distinction between failure
kinds — any failed connection attempt, an authentication rejection included,
is retried up to 3 total attempts with exponential backoff; only after three
consecutive failures does connect raise, with the last attempt's failure. -/
theorem connect_retry_uniform_policy (att : Nat → AttemptOutcome) :
    (att 0 = AttemptOutcome.success → connect_with_retry att = Except.ok 0) ∧
    (att 0 ≠ AttemptOutcome.success → att 1 = AttemptOutcome.success →
      connect_with_retry att = Except.ok 1) ∧
    (att 0 ≠ AttemptOutcome.success → att 1 ≠ AttemptOutcome.success →
      att 2 = AttemptOutcome.success → connect_with_retry att = Except.ok 2) ∧
    (att 0 ≠ AttemptOutcome.success → att 1 ≠ AttemptOutcome.success →
      att 2 ≠ AttemptOutcome.success →
      connect_with_retry att = Except.error (att 2)) := by
  unfold connect_with_retry
  refine ⟨?_, ?_, ?_, ?_⟩
  · intro h0
    exact go_success att 0 2 h0
  · intro h0 h1
    rw [show (3 : Nat) = 1 + 2 from rfl, go_step att 0 1 h0]
    exact go_success att 1 1 h1
  · intro h0 h1 h2
    rw [show (3 : Nat) = 1 + 2 from rfl, go_step att 0 1 h0,
      show (1 + 1 : Nat) = 0 + 2 from rfl, go_step att 1 0 h1]
    exact go_success att 2 0 h2
  · intro h0 h1 h2
    rw [show (3 : Nat) = 1 + 2 from rfl, go_step att 0 1 h0,
      show (1 + 1 : Nat) = 0 + 2 from rfl, go_step att 1 0 h1]
    exact go_last att 2 h2

/-- Witness for C5: an auth-rejected first attempt followed by a successful
second attempt. -/
theorem connect_retry_uniform_policy_witness :
    attC5 0 ≠ AttemptOutcome.success ∧ attC5 1 = AttemptOutcome.success ∧
    connect_with_retry attC5 = Except.ok 1 := by
  exact ⟨by decide, by decide, (connect_retry_uniform_policy attC5).2.1 (by decide) (by decide)⟩

/-- C6: execute_command raises iff invoked while the executor is not
connected; when connected a remote execution exception is returned as a
result with success=false and return_code=-1 instead of being raised. -/
theorem execute_command_raises_iff_disconnected (connected : Bool) (o : ExecOutcome) :
    ((∃ e, execute_command connected o = Except.error e) ↔ connected = false) ∧
    (connected = true → ∀ msg, execute_command connected (ExecOutcome.exc msg) =
      Except.ok { success := false, stdout := "", stderr := msg, return_code := -1 }) := by
  cases connected <;> cases o <;> simp [execute_command]

/-- Witness for C6: a disconnected call raises; a connected call with a
failing transport returns the -1 result. -/
theorem execute_command_raises_iff_disconnected_witness :
    (∃ e, execute_command false (ExecOutcome.ok "" "" 0) = Except.error e) ∧
    execute_command true (ExecOutcome.exc "boom") =
      Except.ok { success := false, stdout := "", stderr := "boom", return_code := -1 } := by
  exact ⟨(execute_command_raises_iff_disconnected false (ExecOutcome.ok "" "" 0)).1.mpr rfl,
    (execute_command_raises_iff_disconnected true (ExecOutcome.exc "boom")).2 rfl "boom"⟩

/-- C7: copy_files reports success exactly for robocopy exit codes 0, 1 and
2; any exit code of 8 or more is reported as failed. -/
theorem copy_files_success_codes (out err : String) (code : Int) :
    ((copy_files (ExecOutcome.ok out err code)).success = true ↔
      (code = 0 ∨ code = 1 ∨ code = 2)) ∧
    (8 ≤ code → (copy_files (ExecOutcome.ok out err code)).success = false) := by
  have hchar : (copy_files (ExecOutcome.ok out err code)).success =
      (code == 0 || code == 1 || code == 2) := by
    show (if (code == 0 || code == 1 || code == 2) = true then
            ({ success := true,
               message := "Files copied (robocopy exit code: " ++ toString code ++ ")",
               stdout := pyStrip out, stderr := pyStrip err,
               return_code := code } : CopyResult)
          else
            { success := false, message := "Copy failed: " ++ pyStrip err,
              stdout := pyStrip out, stderr := pyStrip err,
              return_code := code }).success =
      (code == 0 || code == 1 || code == 2)
    cases hb : (code == 0 || code == 1 || code == 2)
    · rfl
    · rfl
  constructor
  · rw [hchar]
    simp [or_assoc]
  · intro h8
    rw [hchar]
    simp only [Bool.or_eq_false_iff, beq_eq_false_iff_ne, ne_eq]
    refine ⟨⟨?_, ?_⟩, ?_⟩ <;> omega

/-- Witness for C7 at exit codes 2 and 16. -/
theorem copy_files_success_codes_witness :
    (copy_files (ExecOutcome.ok "" "" 2)).success = true ∧
    (8 : Int) ≤ 16 ∧
    (copy_files (ExecOutcome.ok "" "copy failed" 16)).success = false := by
  exact ⟨(copy_files_success_codes "" "" 2).1.mpr (by decide), by decide,
    (copy_files_success_codes "" "copy failed" 16).2 (by decide)⟩

/-- C8 (code bug): get_site_state returns the probe's stdout whenever the
query succeeds; for an absent site the probe SUCCEEDS printing "NotFound"
(the else-branch the function itself builds, iis_tool.py:278), so the
function returns the string "NotFound" instead of the None promised by the
claim and by its own docstring (iis_tool.py:273); None is returned only when
the query itself fails. -/
theorem get_site_state_absent_site_NotFound :
    get_site_state (siteStateProbe (some "Started")) = some "Started" ∧
    get_site_state (ExecOutcome.exc "connection lost") = none ∧
    get_site_state (siteStateProbe none) = some "NotFound" ∧
    get_site_state (siteStateProbe none) ≠ none := by decide

/-- C9 counterexample: a run in which only the preventive backup fails ends
with success=true and an EMPTY error summary — the preventive failure is
neither accumulated nor surfaced, refuting the claim that it appears in the
final error summary. -/
theorem preventive_failure_not_surfaced_counterexample :
    (create_preventive_backup cfgW.site_path (dirnameW cfgW.backup_path) cfgW.site_name
        envC9.preventiveRes envC9.nowStamp).success = false ∧
    (execute_rollback cfgW envC9).result.success = true ∧
    (execute_rollback cfgW envC9).result.error = "" ∧
    StepEvent.startEv ∈ (execute_rollback cfgW envC9).trace := by decide

/-- C9 (amended): a failing preventive backup never aborts the run — it
continues through the remaining steps — but the failure is only logged as a
warning: it is not accumulated into the final error summary (which stays
empty when no other step fails), and the absence of a preventive backup is
visible only through the result's null preventive-backup path. -/
theorem preventive_failure_logged_only (cfg : RollbackConfig) (env : RunEnv)
    (hconn : (connect_ssh cfg.ssh_config env.keyFileExists env.attempts).1 = true)
    (hfolder : (detectOf cfg env).type = RollbackMode.FOLDER)
    (hprev : (create_preventive_backup cfg.site_path (dirnameW cfg.backup_path) cfg.site_name
        env.preventiveRes env.nowStamp).success = false)
    (hstop : (stop_site env.stopRes).success = true)
    (hdel : (delete_site_content env.deleteRes).success = true)
    (hcopy : (copy_files env.copyRes).success = true)
    (hstart : (start_site env.startRes).success = true) :
    (execute_rollback cfg env).result.success = true ∧
    (execute_rollback cfg env).result.error = "" ∧
    (execute_rollback cfg env).result.preventive_backup_path = none ∧
    StepEvent.startEv ∈ (execute_rollback cfg env).trace := by
  obtain ⟨hr, ht⟩ := execute_rollback_folderMode cfg env hconn hfolder
  obtain ⟨h1, h2, h3⟩ := rollback_tail_allok cfg env "folder" ""
    [StepEvent.connectEv, StepEvent.classifyEv] hstop hdel hcopy hstart
  refine ⟨by rw [hr]; exact h1, by rw [hr]; exact h2, ?_, ?_⟩
  · rw [hr, h3, preventive_fail_path cfg.site_path (dirnameW cfg.backup_path) cfg.site_name
      env.preventiveRes env.nowStamp hprev]
  · rw [ht]
    exact (rollback_tail_startEv cfg env "folder" "" _ (by decide)).mpr hcopy

/-- Witness for C9 in a run where only the preventive backup fails. -/
theorem preventive_failure_logged_only_witness :
    (create_preventive_backup cfgW.site_path (dirnameW cfgW.backup_path) cfgW.site_name
        envC9.preventiveRes envC9.nowStamp).success = false ∧
    (execute_rollback cfgW envC9).result.preventive_backup_path = none ∧
    (execute_rollback cfgW envC9).result.success = true := by
  have h := preventive_failure_logged_only cfgW envC9 (by decide) (by decide) (by decide)
    (by decide) (by decide) (by decide) (by decide)
  exact ⟨by decide, h.2.2.1, h.1⟩

/-- C10: when the archive-count command succeeds but its stdout does not
parse as a Python integer, the ValueError handler sets the count to 0 and the
backup classifies as directory-snapshot (FOLDER) — a proceedable outcome —
rather than the none/failure outcome. -/
theorem unparsable_count_folder_mode (cfg : RollbackConfig) (env : RunEnv)
    (hok : (execConnected env.countRes).success = true)
    (hparse : pyInt? (pyStrip (execConnected env.countRes).stdout) = none) :
    (detectOf cfg env).type = RollbackMode.FOLDER ∧
    (detectOf cfg env).zip_count = 0 ∧
    (detectOf cfg env).type ≠ RollbackMode.NONE := by
  unfold detectOf detect_backup_type
  simp [hok, hparse]

/-- Witness for C10 at a count command printing "abc". -/
theorem unparsable_count_folder_mode_witness :
    (execConnected envC10.countRes).success = true ∧
    pyInt? (pyStrip (execConnected envC10.countRes).stdout) = none ∧
    (detectOf cfgW envC10).type = RollbackMode.FOLDER := by
  exact ⟨by decide, by decide,
    (unparsable_count_folder_mode cfgW envC10 (by decide) (by decide)).1⟩

end IISRollback
